import Mathlib

/-!
Shallow embedding of the address-mapper geocoding application (src/app.py).

The geocoding provider (geopy Nominatim, reached through
`geocoder.geocode(query, timeout=10)`) is modelled as a function from the
query string to one of three outcomes: a resolved coordinate pair, a
not-found answer (Python `None`), or a raised exception carrying a message.
Floats are modelled as rationals, pandas null cells as `Option`.
-/

namespace AddressMapper

/-- Geocoding status written into the `geocoding_status` column
(app.py lines 44, 60, 63). -/
inductive Status
  | Pending
  | Success
  | Failed
deriving DecidableEq, Repr

/-- One uploaded CSV row: the two required columns (app.py line 248) plus
any extra columns, which the pipeline never touches. -/
structure InputRow where
  zipcode : String
  no_of_households : ℤ
  extra : List (String × String)
deriving DecidableEq, Repr

/-- One row of the processed dataframe: the input columns plus the three
columns added by `process_csv_zipcodes` (app.py lines 42-44). -/
structure ResultRow where
  zipcode : String
  no_of_households : ℤ
  extra : List (String × String)
  latitude : Option ℚ
  longitude : Option ℚ
  geocoding_status : Status
deriving DecidableEq, Repr

/-- Outcome of one call to the external geocoding service:
`geocoder.geocode` returns a location, returns `None`, or raises. -/
inductive GeoOutcome
  | ok (lat lon : ℚ)
  | notFound
  | raises (msg : String)
deriving DecidableEq, Repr

/-- The external geocoding service, as a function from query string to
outcome (deterministic stub, as in the testable-properties section). -/
abbrev Provider := String → GeoOutcome

/-- Query string sent to the provider (app.py line 26). -/
def queryString (zipcode : String) : String :=
  zipcode ++ ", USA"

/-- Warning text of app.py line 32. The Python f-string wraps the zipcode
in single quote characters, which are omitted here; the zipcode and the
exception message appear verbatim either way. -/
def warningMessage (zipcode msg : String) : String :=
  "Geocoding error for zipcode " ++ zipcode ++ ": " ++ msg

/-- Embedding of `geocode_zipcode` (app.py lines 20-33): returns the
latitude/longitude pair (absent on not-found and on exception) together
with the list of warnings emitted. -/
def geocode_zipcode (p : Provider) (zipcode : String) :
    (Option ℚ × Option ℚ) × List String :=
  match p (queryString zipcode) with
  | GeoOutcome.ok lat lon => ((some lat, some lon), [])
  | GeoOutcome.notFound => ((none, none), [])
  | GeoOutcome.raises msg => ((none, none), [warningMessage zipcode msg])

/-- Python truthiness of a float-or-None cell: `None` and `0.0` are falsy.
This models the test `if lat and lon:` of app.py line 57. -/
def pyTruthy : Option ℚ → Bool
  | none => false
  | some x => x != 0

/-- The result row written by one iteration of the loop of
`process_csv_zipcodes` (app.py lines 52-63): coordinates and Success when
`lat and lon` is truthy, otherwise Failed with the columns left at their
initial `None`. -/
def resultRowFor (p : Provider) (r : InputRow) : ResultRow :=
  let g := geocode_zipcode p r.zipcode
  if pyTruthy g.1.1 && pyTruthy g.1.2 then
    ⟨r.zipcode, r.no_of_households, r.extra, g.1.1, g.1.2, Status.Success⟩
  else
    ⟨r.zipcode, r.no_of_households, r.extra, none, none, Status.Failed⟩

/-- Contribution of one row to the `successful_geocodes` counter
(app.py line 61): incremented under exactly the same test. -/
def successBit (p : Provider) (r : InputRow) : ℕ :=
  let g := geocode_zipcode p r.zipcode
  if pyTruthy g.1.1 && pyTruthy g.1.2 then 1 else 0

/-- Warnings emitted while geocoding one row. -/
def rowWarnings (p : Provider) (r : InputRow) : List String :=
  (geocode_zipcode p r.zipcode).2

/-- Everything observable about one run of `process_csv_zipcodes`:
the returned dataframe rows, the success counter, the warnings shown,
the provider queries issued (in order), and the `(index+1, len(df))`
pairs fed to the progress bar (app.py line 66) - the division there
only ever executes once per processed row. -/
structure ProcessOutput where
  rows : List ResultRow
  successful_geocodes : ℕ
  warnings : List String
  queries : List String
  progressUpdates : List (ℕ × ℕ)
deriving DecidableEq, Repr

/-- The loop of `process_csv_zipcodes` (app.py lines 52-69), with the
running dataframe index and the fixed total `len(df)`. -/
def processRows (p : Provider) (total : ℕ) : ℕ → List InputRow → ProcessOutput
  | _, [] => ⟨[], 0, [], [], []⟩
  | i, r :: rs =>
    let g := geocode_zipcode p r.zipcode
    let rest := processRows p total (i + 1) rs
    { rows := resultRowFor p r :: rest.rows
      successful_geocodes := successBit p r + rest.successful_geocodes
      warnings := g.2 ++ rest.warnings
      queries := queryString r.zipcode :: rest.queries
      progressUpdates := (i + 1, total) :: rest.progressUpdates }

/-- Embedding of `process_csv_zipcodes` (app.py lines 35-73). -/
def process_csv_zipcodes (p : Provider) (rows : List InputRow) : ProcessOutput :=
  processRows p rows.length 0 rows

/-- Projection of a result row back onto its input columns. -/
def stripResult (r : ResultRow) : InputRow :=
  ⟨r.zipcode, r.no_of_households, r.extra⟩

/-- The rows of a result set whose status column is Success. -/
def successRows (rows : List ResultRow) : List ResultRow :=
  rows.filter (fun r => r.geocoding_status == Status.Success)

/-- One circle marker placed on the folium map (app.py lines 132-141):
its coordinate, its radius, and its fill color. -/
structure Marker where
  lat : ℚ
  lon : ℚ
  radius : ℚ
  color : String
deriving DecidableEq, Repr

/-- Latitude cell of a row, read as a number (rows reaching this point
always have the cell present). -/
def latVal (r : ResultRow) : ℚ :=
  r.latitude.getD 0

/-- Longitude cell of a row, read as a number. -/
def lonVal (r : ResultRow) : ℚ :=
  r.longitude.getD 0

/-- The `df.dropna(subset=['latitude','longitude'])` filter of
app.py line 80. -/
def validRows (rows : List ResultRow) : List ResultRow :=
  rows.filter (fun r => r.latitude.isSome && r.longitude.isSome)

/-- The normalized magnitude of app.py line 106. -/
def normalizedT (minH maxH h : ℤ) : ℚ :=
  ((h : ℚ) - (minH : ℚ)) / ((maxH : ℚ) - (minH : ℚ))

/-- The color chain of app.py lines 112-121, as a function of the
`normalized_size` value it reads. -/
def colorOf (ns : ℚ) : String :=
  if ns ≥ 4 / 5 then "#d73027"
  else if ns ≥ 3 / 5 then "#f46d43"
  else if ns ≥ 2 / 5 then "#fdae61"
  else if ns ≥ 1 / 5 then "#fee08b"
  else "#e0f3f8"

/-- Bucket index of a fill color, 5 = highest band down to 1 = lowest,
matching the comments of app.py lines 113-121. -/
def colorBucket (c : String) : ℕ :=
  if c = "#d73027" then 5
  else if c = "#f46d43" then 4
  else if c = "#fdae61" then 3
  else if c = "#fee08b" then 2
  else 1

/-- The marker produced for a row on the non-degenerate path
(app.py lines 106-121): radius `5 + normalized_size * 45` and the
threshold color of its own normalized magnitude. -/
def markerFor (minH maxH : ℤ) (r : ResultRow) : Marker :=
  let t := normalizedT minH maxH r.no_of_households
  ⟨latVal r, lonVal r, 5 + t * 45, colorOf t⟩

/-- The rendering step can raise: reading the local variable
`normalized_size` before any assignment to it (app.py line 112 after the
line-109 branch) is a Python NameError. -/
inductive RenderError
  | nameError
deriving DecidableEq, Repr

/-- One iteration of the marker loop body (app.py lines 104-121).
The first component of the state is the `normalized_size` local variable:
assigned only in the `max_households > min_households` branch, and read
unconditionally by the color chain - reading it while unassigned raises
NameError. -/
def markerStep (minH maxH : ℤ) (ns0 : Option ℚ) (r : ResultRow) :
    Except RenderError (Option ℚ × Marker) :=
  let st :=
    if maxH > minH then
      (some (normalizedT minH maxH r.no_of_households),
        5 + normalizedT minH maxH r.no_of_households * 45)
    else (ns0, (25 : ℚ))
  match st.1 with
  | none => Except.error RenderError.nameError
  | some ns => Except.ok (some ns, ⟨latVal r, lonVal r, st.2, colorOf ns⟩)

/-- The marker loop of app.py lines 103-157, threading the
`normalized_size` variable through the iterations. -/
def markerLoop (minH maxH : ℤ) : Option ℚ → List ResultRow → Except RenderError (List Marker)
  | _, [] => Except.ok []
  | ns0, r :: rs =>
    match markerStep minH maxH ns0 r with
    | Except.error e => Except.error e
    | Except.ok (ns1, m) =>
      match markerLoop minH maxH ns1 rs with
      | Except.error e => Except.error e
      | Except.ok ms => Except.ok (m :: ms)

/-- Map center of app.py lines 87-88: column means over the valid rows. -/
def centerOf (l : List ResultRow) : ℚ × ℚ :=
  ((l.map latVal).sum / (l.length : ℚ), (l.map lonVal).sum / (l.length : ℚ))

/-- What `create_map` produces: either the "No valid coordinates found"
error path that returns `None` (app.py lines 82-84), or a rendered map
with its center, the column extremes, and the circle markers. -/
inductive MapOutcome
  | noData
  | rendered (centerLat centerLon : ℚ) (minH maxH : ℤ) (markers : List Marker)
deriving DecidableEq, Repr

/-- Center computation factored on the shape of the valid-row list. -/
def map_center_aux : List ResultRow → Option (ℚ × ℚ)
  | [] => none
  | v :: vs => some (centerOf (v :: vs))

/-- The center actually computed by `create_map` (app.py lines 80-88):
absent exactly when no row survives the dropna filter. -/
def map_center (rows : List ResultRow) : Option (ℚ × ℚ) :=
  map_center_aux (validRows rows)

/-- Body of `create_map` on the already-filtered valid rows
(app.py lines 82-176): the min/max of the `no_of_households` column
(lines 99-100) and the marker loop. -/
def create_map_aux : List ResultRow → Except RenderError MapOutcome
  | [] => Except.ok MapOutcome.noData
  | v :: vs =>
    let c := centerOf (v :: vs)
    let minH := ((v :: vs).map (fun r => r.no_of_households)).foldl min v.no_of_households
    let maxH := ((v :: vs).map (fun r => r.no_of_households)).foldl max v.no_of_households
    match markerLoop minH maxH none (v :: vs) with
    | Except.error e => Except.error e
    | Except.ok ms => Except.ok (MapOutcome.rendered c.1 c.2 minH maxH ms)

/-- Embedding of `create_map` (app.py lines 75-176). -/
def create_map (rows : List ResultRow) : Except RenderError MapOutcome :=
  create_map_aux (validRows rows)

/-- The required columns of app.py line 248. -/
def required_columns : List String :=
  ["zipcode", "no_of_households"]

/-- The missing-column computation of app.py line 249. -/
def missing_columns (cols : List String) : List String :=
  required_columns.filter (fun c => ! cols.contains c)

/-- An uploaded CSV file: its header and its parsed rows. -/
structure RawTable where
  columns : List String
  rows : List InputRow
deriving Repr

/-- The validation-then-process flow of `main` (app.py lines 247-265):
on missing columns the error is shown and the handler returns before any
geocoding; otherwise the rows are processed. -/
def main_process (p : Provider) (t : RawTable) : Except String ProcessOutput :=
  if missing_columns t.columns = [] then
    Except.ok (process_csv_zipcodes p t.rows)
  else
    Except.error ("Missing required columns: " ++
      String.intercalate ", " (missing_columns t.columns))

/-- Provider stub that resolves every query to (40, -73). -/
def okP : Provider := fun _ => GeoOutcome.ok 40 (-73)

/-- Provider stub that resolves every query to latitude 0, longitude 7:
a perfectly valid coordinate on the equator. -/
def zeroLatP : Provider := fun _ => GeoOutcome.ok 0 7

/-- Provider stub that finds nothing. -/
def notFoundP : Provider := fun _ => GeoOutcome.notFound

/-- Provider stub that raises on every query. -/
def raisingP : Provider := fun _ => GeoOutcome.raises "timeout"

/-- Sample input row from the spec scenario. -/
def row10001 : InputRow := ⟨"10001", 2500, []⟩

/-- Second sample input row. -/
def row90210 : InputRow := ⟨"90210", 1800, []⟩

/-- A successfully geocoded result row with magnitude 10. -/
def vrowA : ResultRow := ⟨"A", 10, [], some 1, some 2, Status.Success⟩

/-- A successfully geocoded result row with magnitude 20. -/
def vrowB : ResultRow := ⟨"B", 20, [], some 3, some 4, Status.Success⟩

/-- An upload whose header lacks the required `zipcode` column. -/
def tableMissing : RawTable := ⟨["no_of_households"], []⟩

/-- An upload with both required columns and one extra column. -/
def tableGood : RawTable :=
  ⟨["zipcode", "no_of_households", "city"], [⟨"10001", 2500, [("city", "NYC")]⟩]⟩

/-! ## Structural lemmas about the pipeline loop -/

theorem processRows_rows (p : Provider) (total i : ℕ) (rs : List InputRow) :
    (processRows p total i rs).rows = rs.map (resultRowFor p) := by
  induction rs generalizing i with
  | nil => rfl
  | cons r rs ih => simp [processRows, ih]

theorem processRows_success (p : Provider) (total i : ℕ) (rs : List InputRow) :
    (processRows p total i rs).successful_geocodes = (rs.map (successBit p)).sum := by
  induction rs generalizing i with
  | nil => rfl
  | cons r rs ih => simp [processRows, ih]

theorem processRows_warnings (p : Provider) (total i : ℕ) (rs : List InputRow) :
    (processRows p total i rs).warnings = (rs.map (rowWarnings p)).flatten := by
  induction rs generalizing i with
  | nil => rfl
  | cons r rs ih => simp [processRows, ih, rowWarnings]

theorem processRows_queries (p : Provider) (total i : ℕ) (rs : List InputRow) :
    (processRows p total i rs).queries = rs.map (fun r => queryString r.zipcode) := by
  induction rs generalizing i with
  | nil => rfl
  | cons r rs ih => simp [processRows, ih]

theorem process_rows_eq (p : Provider) (rows : List InputRow) :
    (process_csv_zipcodes p rows).rows = rows.map (resultRowFor p) :=
  processRows_rows p rows.length 0 rows

/-- Every result row written by the loop has one of exactly two shapes:
a Success row whose coordinate cells hold nonzero values, or a Failed row
whose coordinate cells are still null. -/
theorem resultRowFor_cases (p : Provider) (r : InputRow) :
    (∃ a b : ℚ, a ≠ 0 ∧ b ≠ 0 ∧
      resultRowFor p r =
        ⟨r.zipcode, r.no_of_households, r.extra, some a, some b, Status.Success⟩) ∨
    resultRowFor p r =
      ⟨r.zipcode, r.no_of_households, r.extra, none, none, Status.Failed⟩ := by
  by_cases h : (pyTruthy (geocode_zipcode p r.zipcode).1.1 &&
      pyTruthy (geocode_zipcode p r.zipcode).1.2) = true
  · left
    rcases hl : (geocode_zipcode p r.zipcode).1.1 with _ | a
    · rw [hl] at h; simp [pyTruthy] at h
    · rcases hlo : (geocode_zipcode p r.zipcode).1.2 with _ | b
      · rw [hlo] at h; simp [pyTruthy] at h
      · have h2 := h
        rw [hl, hlo] at h2
        simp only [pyTruthy, Bool.and_eq_true, bne_iff_ne, ne_eq] at h2
        refine ⟨a, b, h2.1, h2.2, ?_⟩
        simp only [resultRowFor]
        rw [if_pos h, hl, hlo]
  · right
    simp only [resultRowFor]
    rw [if_neg h]

theorem stripResult_resultRowFor (p : Provider) (r : InputRow) :
    stripResult (resultRowFor p r) = r := by
  rcases resultRowFor_cases p r with ⟨a, b, _, _, h⟩ | h <;> rw [h] <;> rfl

theorem status_resultRowFor (p : Provider) (r : InputRow) :
    (resultRowFor p r).geocoding_status = Status.Success ∨
      (resultRowFor p r).geocoding_status = Status.Failed := by
  rcases resultRowFor_cases p r with ⟨a, b, _, _, h⟩ | h <;> rw [h]
  · exact Or.inl rfl
  · exact Or.inr rfl

/-- On every row the loop writes, the dropna test and the Success test
coincide. -/
theorem coords_test_eq_success_test (p : Provider) (r : InputRow) :
    ((resultRowFor p r).latitude.isSome && (resultRowFor p r).longitude.isSome) =
      ((resultRowFor p r).geocoding_status == Status.Success) := by
  rcases resultRowFor_cases p r with ⟨a, b, _, _, h⟩ | h <;> rw [h] <;> rfl

theorem latitude_isSome_iff (p : Provider) (r : InputRow) :
    (resultRowFor p r).latitude.isSome = true ↔
      (resultRowFor p r).geocoding_status = Status.Success := by
  rcases resultRowFor_cases p r with ⟨a, b, _, _, h⟩ | h <;> rw [h] <;> simp

theorem longitude_isSome_iff (p : Provider) (r : InputRow) :
    (resultRowFor p r).longitude.isSome = true ↔
      (resultRowFor p r).geocoding_status = Status.Success := by
  rcases resultRowFor_cases p r with ⟨a, b, _, _, h⟩ | h <;> rw [h] <;> simp

theorem successBit_eq (p : Provider) (r : InputRow) :
    successBit p r =
      (if (resultRowFor p r).geocoding_status == Status.Success then 1 else 0) := by
  unfold successBit resultRowFor
  by_cases h : (pyTruthy (geocode_zipcode p r.zipcode).1.1 &&
      pyTruthy (geocode_zipcode p r.zipcode).1.2) = true <;>
    simp [h]

theorem success_counter_eq (p : Provider) (rows : List InputRow) :
    (process_csv_zipcodes p rows).successful_geocodes =
      (successRows (process_csv_zipcodes p rows).rows).length := by
  rw [process_csv_zipcodes, processRows_success, processRows_rows, successRows,
    List.filter_map, List.length_map, ← List.countP_eq_length_filter]
  induction rows with
  | nil => rfl
  | cons r rs ih =>
    simp only [List.map_cons, List.sum_cons, List.countP_cons, ih, successBit_eq,
      Function.comp]
    by_cases h : ((resultRowFor p r).geocoding_status == Status.Success) = true <;>
      simp [h, Nat.add_comm]

/-- The dropna filter of `create_map` keeps exactly the Success rows of a
pipeline output. -/
theorem validRows_pipeline (p : Provider) (rows : List InputRow) :
    validRows (process_csv_zipcodes p rows).rows =
      successRows (process_csv_zipcodes p rows).rows := by
  rw [validRows, successRows]
  apply List.filter_congr
  intro x hx
  rw [process_rows_eq] at hx
  rcases List.mem_map.mp hx with ⟨r, _, rfl⟩
  exact coords_test_eq_success_test p r

/-! ## Lemmas about the column min/max folds -/

theorem foldl_min_le_init (l : List ℤ) : ∀ a : ℤ, l.foldl min a ≤ a := by
  induction l with
  | nil => intro a; exact le_refl a
  | cons x xs ih =>
    intro a
    exact le_trans (ih (min a x)) (min_le_left a x)

theorem foldl_min_le_mem (l : List ℤ) : ∀ a x : ℤ, x ∈ l → l.foldl min a ≤ x := by
  induction l with
  | nil => intro a x hx; cases hx
  | cons y ys ih =>
    intro a x hx
    rcases List.mem_cons.mp hx with rfl | hx
    · exact le_trans (foldl_min_le_init ys (min a x)) (min_le_right a x)
    · exact ih (min a y) x hx

theorem foldl_min_reaches (l : List ℤ) : ∀ a : ℤ, l.foldl min a = a ∨ l.foldl min a ∈ l := by
  induction l with
  | nil => intro a; exact Or.inl rfl
  | cons y ys ih =>
    intro a
    rcases ih (min a y) with h | h
    · rcases min_choice a y with hm | hm
      · exact Or.inl (by rw [List.foldl_cons, h, hm])
      · exact Or.inr (by rw [List.foldl_cons, h, hm]; exact List.mem_cons_self y ys)
    · exact Or.inr (List.mem_cons_of_mem y h)

theorem foldl_max_init_le (l : List ℤ) : ∀ a : ℤ, a ≤ l.foldl max a := by
  induction l with
  | nil => intro a; exact le_refl a
  | cons x xs ih =>
    intro a
    exact le_trans (le_max_left a x) (ih (max a x))

theorem foldl_max_mem_le (l : List ℤ) : ∀ a x : ℤ, x ∈ l → x ≤ l.foldl max a := by
  induction l with
  | nil => intro a x hx; cases hx
  | cons y ys ih =>
    intro a x hx
    rcases List.mem_cons.mp hx with rfl | hx
    · exact le_trans (le_max_right a x) (foldl_max_init_le ys (max a x))
    · exact ih (max a y) x hx

theorem foldl_max_reaches (l : List ℤ) : ∀ a : ℤ, l.foldl max a = a ∨ l.foldl max a ∈ l := by
  induction l with
  | nil => intro a; exact Or.inl rfl
  | cons y ys ih =>
    intro a
    rcases ih (max a y) with h | h
    · rcases max_choice a y with hm | hm
      · exact Or.inl (by rw [List.foldl_cons, h, hm])
      · exact Or.inr (by rw [List.foldl_cons, h, hm]; exact List.mem_cons_self y ys)
    · exact Or.inr (List.mem_cons_of_mem y h)

/-! ## Lemmas about the marker loop and map construction -/

/-- On the non-degenerate path the marker loop never consults the stale
state and produces exactly one marker per valid row. -/
theorem markerLoop_nondegenerate (minH maxH : ℤ) (hnd : minH < maxH) :
    ∀ (ns0 : Option ℚ) (l : List ResultRow),
      markerLoop minH maxH ns0 l = Except.ok (l.map (markerFor minH maxH)) := by
  intro ns0 l
  induction l generalizing ns0 with
  | nil => rfl
  | cons r rs ih =>
    simp [markerLoop, markerStep, if_pos hnd, ih, markerFor]

/-- Inversion of `create_map` on its rendered outcome: recovers the valid
rows, the column extremes, the center, and the marker list. -/
theorem create_map_rendered_inv (rows : List ResultRow) (cl co : ℚ) (minH maxH : ℤ)
    (ms : List Marker)
    (h : create_map rows = Except.ok (MapOutcome.rendered cl co minH maxH ms)) :
    ∃ v vs, validRows rows = v :: vs ∧
      minH = ((v :: vs).map (fun r => r.no_of_households)).foldl min v.no_of_households ∧
      maxH = ((v :: vs).map (fun r => r.no_of_households)).foldl max v.no_of_households ∧
      cl = (centerOf (v :: vs)).1 ∧ co = (centerOf (v :: vs)).2 ∧
      (minH < maxH → ms = (v :: vs).map (markerFor minH maxH)) := by
  rw [create_map] at h
  rcases hv : validRows rows with _ | ⟨v, vs⟩
  · rw [hv] at h
    exact absurd h (by simp [create_map_aux])
  · rw [hv] at h
    refine ⟨v, vs, rfl, ?_⟩
    rcases hml : markerLoop
        (((v :: vs).map (fun r => r.no_of_households)).foldl min v.no_of_households)
        (((v :: vs).map (fun r => r.no_of_households)).foldl max v.no_of_households)
        none (v :: vs) with e | ms2
    · rw [create_map_aux, hml] at h
      exact absurd h (by simp)
    · rw [create_map_aux, hml] at h
      simp only [Except.ok.injEq, MapOutcome.rendered.injEq] at h
      obtain ⟨hcl, hco, hmin, hmax, hms⟩ := h
      refine ⟨hmin.symm, hmax.symm, hcl.symm, hco.symm, ?_⟩
      intro hnd
      rw [hms, hmin, hmax] at hml
      rw [markerLoop_nondegenerate _ _ hnd] at hml
      simpa using hml.symm

/-! ## Lemmas about the color thresholds and the normalized magnitude -/

theorem colorBucket_colorOf (ns : ℚ) :
    colorBucket (colorOf ns) =
      if ns ≥ 4 / 5 then 5
      else if ns ≥ 3 / 5 then 4
      else if ns ≥ 2 / 5 then 3
      else if ns ≥ 1 / 5 then 2
      else 1 := by
  unfold colorOf
  split_ifs <;> rfl

theorem colorBucket_colorOf_mono {ns1 ns2 : ℚ} (h : ns1 ≤ ns2) :
    colorBucket (colorOf ns1) ≤ colorBucket (colorOf ns2) := by
  rw [colorBucket_colorOf, colorBucket_colorOf]
  split_ifs <;> (first | omega | linarith)

theorem colorOf_mem_palette (ns : ℚ) :
    colorOf ns ∈ ["#d73027", "#f46d43", "#fdae61", "#fee08b", "#e0f3f8"] := by
  unfold colorOf
  split_ifs <;> simp

theorem normalizedT_mono {minH maxH h1 h2 : ℤ} (hnd : minH < maxH) (hh : h1 ≤ h2) :
    normalizedT minH maxH h1 ≤ normalizedT minH maxH h2 := by
  unfold normalizedT
  have hd : (0 : ℚ) < (maxH : ℚ) - (minH : ℚ) := by
    have : (minH : ℚ) < (maxH : ℚ) := by exact_mod_cast hnd
    linarith
  apply div_le_div_of_nonneg_right ?_ hd.le
  have : (h1 : ℚ) ≤ (h2 : ℚ) := by exact_mod_cast hh
  linarith

theorem normalizedT_nonneg {minH maxH h : ℤ} (hnd : minH < maxH) (hl : minH ≤ h) :
    0 ≤ normalizedT minH maxH h := by
  unfold normalizedT
  have hd : (0 : ℚ) < (maxH : ℚ) - (minH : ℚ) := by
    have : (minH : ℚ) < (maxH : ℚ) := by exact_mod_cast hnd
    linarith
  have hn : (0 : ℚ) ≤ (h : ℚ) - (minH : ℚ) := by
    have : (minH : ℚ) ≤ (h : ℚ) := by exact_mod_cast hl
    linarith
  exact div_nonneg hn (le_of_lt hd)

theorem normalizedT_le_one {minH maxH h : ℤ} (hnd : minH < maxH) (hu : h ≤ maxH) :
    normalizedT minH maxH h ≤ 1 := by
  unfold normalizedT
  have hd : (0 : ℚ) < (maxH : ℚ) - (minH : ℚ) := by
    have : (minH : ℚ) < (maxH : ℚ) := by exact_mod_cast hnd
    linarith
  rw [div_le_one hd]
  have : (h : ℚ) ≤ (maxH : ℚ) := by exact_mod_cast hu
  linarith

theorem normalizedT_at_min (minH maxH : ℤ) :
    normalizedT minH maxH minH = 0 := by
  unfold normalizedT
  rw [sub_self, zero_div]

theorem normalizedT_at_max {minH maxH : ℤ} (hnd : minH < maxH) :
    normalizedT minH maxH maxH = 1 := by
  unfold normalizedT
  apply div_self
  have : (minH : ℚ) < (maxH : ℚ) := by exact_mod_cast hnd
  exact sub_ne_zero_of_ne (ne_of_gt this)

theorem process_strip_eq (p : Provider) (rows : List InputRow) :
    (process_csv_zipcodes p rows).rows.map stripResult = rows := by
  rw [process_rows_eq, List.map_map]
  have h : stripResult ∘ resultRowFor p = id := funext (stripResult_resultRowFor p)
  rw [h, List.map_id]

theorem colorBucket_eq_five_iff (ns : ℚ) :
    colorBucket (colorOf ns) = 5 ↔ 4 / 5 ≤ ns := by
  rw [colorBucket_colorOf]
  split_ifs <;> constructor <;> intro h3 <;>
    (first
      | omega
      | linarith
      | exact ⟨by linarith, by linarith⟩
      | (obtain ⟨h4, h5⟩ := h3; linarith))

theorem colorBucket_eq_four_iff (ns : ℚ) :
    colorBucket (colorOf ns) = 4 ↔ 3 / 5 ≤ ns ∧ ns < 4 / 5 := by
  rw [colorBucket_colorOf]
  split_ifs <;> constructor <;> intro h3 <;>
    (first
      | omega
      | linarith
      | exact ⟨by linarith, by linarith⟩
      | (obtain ⟨h4, h5⟩ := h3; linarith))

theorem colorBucket_eq_three_iff (ns : ℚ) :
    colorBucket (colorOf ns) = 3 ↔ 2 / 5 ≤ ns ∧ ns < 3 / 5 := by
  rw [colorBucket_colorOf]
  split_ifs <;> constructor <;> intro h3 <;>
    (first
      | omega
      | linarith
      | exact ⟨by linarith, by linarith⟩
      | (obtain ⟨h4, h5⟩ := h3; linarith))

theorem colorBucket_eq_two_iff (ns : ℚ) :
    colorBucket (colorOf ns) = 2 ↔ 1 / 5 ≤ ns ∧ ns < 2 / 5 := by
  rw [colorBucket_colorOf]
  split_ifs <;> constructor <;> intro h3 <;>
    (first
      | omega
      | linarith
      | exact ⟨by linarith, by linarith⟩
      | (obtain ⟨h4, h5⟩ := h3; linarith))

theorem colorBucket_eq_one_iff (ns : ℚ) :
    colorBucket (colorOf ns) = 1 ↔ ns < 1 / 5 := by
  rw [colorBucket_colorOf]
  split_ifs <;> constructor <;> intro h3 <;>
    (first
      | omega
      | linarith
      | exact ⟨by linarith, by linarith⟩
      | (obtain ⟨h4, h5⟩ := h3; linarith))

theorem colorBucket_bounds (ns : ℚ) :
    1 ≤ colorBucket (colorOf ns) ∧ colorBucket (colorOf ns) ≤ 5 := by
  rw [colorBucket_colorOf]
  split_ifs <;> omega

theorem markerStep_nondegenerate (minH maxH : ℤ) (hnd : minH < maxH) (ns0 : Option ℚ)
    (r : ResultRow) :
    markerStep minH maxH ns0 r =
      Except.ok (some (normalizedT minH maxH r.no_of_households), markerFor minH maxH r) := by
  simp [markerStep, markerFor, if_pos hnd]

/-! ## Claim theorems -/

/-- C1: for every input sequence of N ≥ 0 rows, `process_csv_zipcodes`
returns exactly N rows in input order (the i-th output row carries the
i-th input row's columns), every returned row's `geocoding_status` is
Success or Failed - never Pending - and for N = 0 it returns the empty
output immediately: no provider query is issued and the progress-bar
division inside the loop never executes. -/
theorem C1_row_count_order_statuses (p : Provider) (rows : List InputRow) :
    (process_csv_zipcodes p rows).rows.map stripResult = rows ∧
    (process_csv_zipcodes p rows).rows.length = rows.length ∧
    (∀ r ∈ (process_csv_zipcodes p rows).rows,
      r.geocoding_status = Status.Success ∨ r.geocoding_status = Status.Failed) ∧
    process_csv_zipcodes p [] = ⟨[], 0, [], [], []⟩ := by
  refine ⟨process_strip_eq p rows, ?_, ?_, rfl⟩
  · rw [process_rows_eq, List.length_map]
  · intro r hr
    rw [process_rows_eq] at hr
    rcases List.mem_map.mp hr with ⟨x, _, rfl⟩
    exact status_resultRowFor p x

theorem C1_witness :
    (process_csv_zipcodes okP [row10001, row90210]).rows.map stripResult =
        [row10001, row90210] ∧
    (process_csv_zipcodes okP [row10001, row90210]).rows.length = 2 :=
  ⟨(C1_row_count_order_statuses okP [row10001, row90210]).1,
    ((C1_row_count_order_statuses okP [row10001, row90210]).2.1).trans rfl⟩

/-- C2: evaluation of the code at the failing input. A provider
resolution whose latitude is 0 (a legitimate coordinate) is marked Failed
with both coordinate cells left null, because app.py line 57 tests Python
truthiness (`if lat and lon`) instead of non-nullness; the same zipcode
with a nonzero resolution is marked Success with both cells set. -/
theorem C2_zero_coordinate_marked_failed :
    zeroLatP (queryString "10001") = GeoOutcome.ok 0 7 ∧
    (process_csv_zipcodes zeroLatP [row10001]).rows =
      [⟨"10001", 2500, [], none, none, Status.Failed⟩] ∧
    (process_csv_zipcodes okP [row10001]).rows =
      [⟨"10001", 2500, [], some 40, some (-73), Status.Success⟩] :=
  ⟨rfl, rfl, rfl⟩

/-- C3: evaluation of the code at the failing input. In the degenerate
case where every successfully geocoded row has the same magnitude
(including the single-row case), `create_map` raises NameError instead of
completing: the color chain reads the local variable `normalized_size`,
which the `max_households > min_households` guard never assigned. No
marker encoding is produced at all. -/
theorem C3_degenerate_raises_name_error :
    create_map [⟨"10001", 100, [], some 40, some (-73), Status.Success⟩] =
      Except.error RenderError.nameError ∧
    create_map [vrowA, ⟨"B", 10, [], some 3, some 4, Status.Success⟩] =
      Except.error RenderError.nameError :=
  ⟨rfl, rfl⟩

/-- C4 counterexample: at the concrete input zipcode 10001 with a
provider exception carrying message timeout, the logged warning is
exactly the line-32 message, which contains the zipcode but does not
contain the query string that was sent to the provider. -/
theorem C4_counterexample_warning_lacks_query :
    (process_csv_zipcodes raisingP [row10001]).warnings =
      [warningMessage "10001" "timeout"] ∧
    (process_csv_zipcodes raisingP [row10001]).queries = [queryString "10001"] ∧
    ¬ (queryString "10001").data <:+: (warningMessage "10001" "timeout").data := by
  refine ⟨rfl, rfl, ?_⟩
  decide

/-- C4 (amended): a provider call that raises during geocoding of one row
is caught inside `geocode_zipcode` and logged as a warning containing the
offending zipcode (not the full query string) and the exception message;
that row is marked Failed with null coordinates, the exception is never
propagated, and the run still returns one output row per input row. -/
theorem C4_exception_recovered (p : Provider) (rows : List InputRow) (i : ℕ)
    (r : InputRow) (msg : String)
    (hr : rows[i]? = some r)
    (hraise : p (queryString r.zipcode) = GeoOutcome.raises msg) :
    (process_csv_zipcodes p rows).rows.length = rows.length ∧
    warningMessage r.zipcode msg ∈ (process_csv_zipcodes p rows).warnings ∧
    r.zipcode.data <:+: (warningMessage r.zipcode msg).data ∧
    (process_csv_zipcodes p rows).rows[i]? =
      some ⟨r.zipcode, r.no_of_households, r.extra, none, none, Status.Failed⟩ := by
  have hmem : r ∈ rows := by
    obtain ⟨hlt, he⟩ := List.getElem?_eq_some_iff.mp hr
    exact he ▸ List.getElem_mem hlt
  have hrow : resultRowFor p r =
      ⟨r.zipcode, r.no_of_households, r.extra, none, none, Status.Failed⟩ := by
    simp [resultRowFor, geocode_zipcode, hraise, pyTruthy]
  refine ⟨by rw [process_rows_eq, List.length_map], ?_, ?_, ?_⟩
  · rw [process_csv_zipcodes, processRows_warnings]
    apply List.mem_flatten.mpr
    refine ⟨[warningMessage r.zipcode msg], ?_, List.mem_singleton.mpr rfl⟩
    apply List.mem_map.mpr
    refine ⟨r, hmem, ?_⟩
    simp [rowWarnings, geocode_zipcode, hraise]
  · refine ⟨"Geocoding error for zipcode ".data, (": " ++ msg).data, ?_⟩
    simp [warningMessage, String.data_append]
  · rw [process_rows_eq, List.getElem?_map, hr, Option.map_some', hrow]

theorem C4_witness :
    ([row10001])[0]? = some row10001 ∧
    raisingP (queryString row10001.zipcode) = GeoOutcome.raises "timeout" ∧
    warningMessage row10001.zipcode "timeout" ∈
      (process_csv_zipcodes raisingP [row10001]).warnings :=
  ⟨rfl, rfl,
    (C4_exception_recovered raisingP [row10001] 0 row10001 "timeout" rfl rfl).2.1⟩

/-- C5: in the non-degenerate case the color bucket of each row is
determined by the fixed thresholds on its normalized magnitude t
(t ≥ 4/5 bucket 5, t ≥ 3/5 bucket 4, t ≥ 2/5 bucket 3, t ≥ 1/5 bucket 2,
else bucket 1), every color is one of exactly five, t = 1 always lands in
the highest bucket, and the assignment is monotone non-decreasing both in
t and in the magnitude; the marker loop assigns each row the color of its
own normalized magnitude. -/
theorem C5_color_bucket_thresholds (ns ns1 ns2 : ℚ) (minH maxH h1 h2 : ℤ)
    (ns0 : Option ℚ) (r : ResultRow)
    (hnd : minH < maxH) (hns : ns1 ≤ ns2) (hh : h1 ≤ h2) :
    (colorBucket (colorOf ns) = 5 ↔ 4 / 5 ≤ ns) ∧
    (colorBucket (colorOf ns) = 4 ↔ 3 / 5 ≤ ns ∧ ns < 4 / 5) ∧
    (colorBucket (colorOf ns) = 3 ↔ 2 / 5 ≤ ns ∧ ns < 3 / 5) ∧
    (colorBucket (colorOf ns) = 2 ↔ 1 / 5 ≤ ns ∧ ns < 2 / 5) ∧
    (colorBucket (colorOf ns) = 1 ↔ ns < 1 / 5) ∧
    colorBucket (colorOf 1) = 5 ∧
    colorOf ns ∈ ["#d73027", "#f46d43", "#fdae61", "#fee08b", "#e0f3f8"] ∧
    1 ≤ colorBucket (colorOf ns) ∧ colorBucket (colorOf ns) ≤ 5 ∧
    colorBucket (colorOf ns1) ≤ colorBucket (colorOf ns2) ∧
    colorBucket (colorOf (normalizedT minH maxH h1)) ≤
      colorBucket (colorOf (normalizedT minH maxH h2)) ∧
    markerStep minH maxH ns0 r =
      Except.ok (some (normalizedT minH maxH r.no_of_households), markerFor minH maxH r) :=
  ⟨colorBucket_eq_five_iff ns, colorBucket_eq_four_iff ns, colorBucket_eq_three_iff ns,
    colorBucket_eq_two_iff ns, colorBucket_eq_one_iff ns,
    (colorBucket_eq_five_iff 1).mpr (by norm_num),
    colorOf_mem_palette ns, (colorBucket_bounds ns).1, (colorBucket_bounds ns).2,
    colorBucket_colorOf_mono hns,
    colorBucket_colorOf_mono (normalizedT_mono hnd hh),
    markerStep_nondegenerate minH maxH hnd ns0 r⟩

theorem C5_witness :
    ((10 : ℤ) < 20 ∧ (0 : ℚ) ≤ 1 ∧ (3 : ℤ) ≤ 7) ∧ colorBucket (colorOf 1) = 5 :=
  ⟨⟨by norm_num, by norm_num, by norm_num⟩,
    (C5_color_bucket_thresholds (1 / 2) 0 1 10 20 3 7 none vrowA
      (by norm_num) (by norm_num) (by norm_num)).2.2.2.2.2.1⟩

/-- C6: in the non-degenerate case every valid row's marker radius is
5 + 45·t with t = (magnitude − min)/(max − min) in [0, 1], hence every
radius lies in [5, 50]; a row of minimal magnitude gets radius exactly 5
and a row of maximal magnitude gets radius exactly 50, and rows with
those magnitudes exist. -/
theorem C6_radius_encoding (rows : List ResultRow) (cl co : ℚ) (minH maxH : ℤ)
    (ms : List Marker)
    (hrun : create_map rows = Except.ok (MapOutcome.rendered cl co minH maxH ms))
    (hnd : minH < maxH) :
    ms = (validRows rows).map (markerFor minH maxH) ∧
    (∀ r ∈ validRows rows,
      0 ≤ normalizedT minH maxH r.no_of_households ∧
      normalizedT minH maxH r.no_of_households ≤ 1 ∧
      (markerFor minH maxH r).radius =
        5 + 45 * normalizedT minH maxH r.no_of_households ∧
      5 ≤ (markerFor minH maxH r).radius ∧ (markerFor minH maxH r).radius ≤ 50 ∧
      (r.no_of_households = minH → (markerFor minH maxH r).radius = 5) ∧
      (r.no_of_households = maxH → (markerFor minH maxH r).radius = 50)) ∧
    (∃ r ∈ validRows rows, r.no_of_households = minH) ∧
    (∃ r ∈ validRows rows, r.no_of_households = maxH) := by
  obtain ⟨v, vs, hv, hmin, hmax, hcl, hco, hms⟩ :=
    create_map_rendered_inv rows cl co minH maxH ms hrun
  have hradius : ∀ r : ResultRow,
      (markerFor minH maxH r).radius = 5 + 45 * normalizedT minH maxH r.no_of_households := by
    intro r
    simp [markerFor]
    ring
  refine ⟨by rw [hv]; exact hms hnd, ?_, ?_, ?_⟩
  · intro r hr
    rw [hv] at hr
    have hlo : minH ≤ r.no_of_households := by
      rw [hmin]
      exact foldl_min_le_mem _ _ _ (List.mem_map_of_mem _ hr)
    have hhi : r.no_of_households ≤ maxH := by
      rw [hmax]
      exact foldl_max_mem_le _ _ _ (List.mem_map_of_mem _ hr)
    have ht0 := normalizedT_nonneg hnd hlo
    have ht1 := normalizedT_le_one hnd hhi
    refine ⟨ht0, ht1, hradius r, ?_, ?_, ?_, ?_⟩
    · rw [hradius r]; linarith
    · rw [hradius r]; linarith
    · intro he
      rw [hradius r, he, normalizedT_at_min]
      norm_num
    · intro he
      rw [hradius r, he, normalizedT_at_max hnd]
      norm_num
  · rw [hv]
    rcases foldl_min_reaches ((v :: vs).map (fun r => r.no_of_households))
        v.no_of_households with h | h
    · exact ⟨v, List.mem_cons_self v vs, by rw [hmin, h]⟩
    · rcases List.mem_map.mp h with ⟨r, hr, he⟩
      exact ⟨r, hr, by rw [hmin]; exact he⟩
  · rw [hv]
    rcases foldl_max_reaches ((v :: vs).map (fun r => r.no_of_households))
        v.no_of_households with h | h
    · exact ⟨v, List.mem_cons_self v vs, by rw [hmax, h]⟩
    · rcases List.mem_map.mp h with ⟨r, hr, he⟩
      exact ⟨r, hr, by rw [hmax]; exact he⟩

theorem C6_witness :
    create_map [vrowA, vrowB] =
      Except.ok (MapOutcome.rendered 2 3 10 20
        [⟨1, 2, 5, "#e0f3f8"⟩, ⟨3, 4, 50, "#d73027"⟩]) ∧
    (10 : ℤ) < 20 ∧
    [Marker.mk 1 2 5 "#e0f3f8", Marker.mk 3 4 50 "#d73027"] =
      (validRows [vrowA, vrowB]).map (markerFor 10 20) := by
  have hv : validRows [vrowA, vrowB] = [vrowA, vrowB] := rfl
  have hml := markerLoop_nondegenerate 10 20 (by norm_num) none [vrowA, vrowB]
  have hmark : List.map (markerFor 10 20) [vrowA, vrowB] =
      [Marker.mk 1 2 5 "#e0f3f8", Marker.mk 3 4 50 "#d73027"] := by
    norm_num [markerFor, normalizedT, latVal, lonVal, vrowA, vrowB, colorOf]
  have hcenter : centerOf [vrowA, vrowB] = (2, 3) := by
    norm_num [centerOf, latVal, lonVal, vrowA, vrowB]
  have hrun : create_map [vrowA, vrowB] =
      Except.ok (MapOutcome.rendered 2 3 10 20
        [⟨1, 2, 5, "#e0f3f8"⟩, ⟨3, 4, 50, "#d73027"⟩]) := by
    rw [create_map, hv]
    simp only [create_map_aux]
    rw [show ([vrowA, vrowB].map (fun r => r.no_of_households)).foldl min
        vrowA.no_of_households = 10 from rfl,
      show ([vrowA, vrowB].map (fun r => r.no_of_households)).foldl max
        vrowA.no_of_households = 20 from rfl, hml, hmark, hcenter]
  exact ⟨hrun, by norm_num,
    (C6_radius_encoding [vrowA, vrowB] 2 3 10 20 _ hrun (by norm_num)).1⟩

/-- C7: for every pipeline output with at least one successfully geocoded
row, the map center is the arithmetic mean of the latitudes and the
arithmetic mean of the longitudes of the Success rows only; Failed rows,
whose coordinate cells are null, are dropped before the mean is taken. -/
theorem C7_center_is_mean_of_success (p : Provider) (rows : List InputRow)
    (hs : ∃ r ∈ (process_csv_zipcodes p rows).rows,
      r.geocoding_status = Status.Success) :
    map_center (process_csv_zipcodes p rows).rows =
      some
        (((successRows (process_csv_zipcodes p rows).rows).map latVal).sum /
            ((successRows (process_csv_zipcodes p rows).rows).length : ℚ),
          ((successRows (process_csv_zipcodes p rows).rows).map lonVal).sum /
            ((successRows (process_csv_zipcodes p rows).rows).length : ℚ)) := by
  rw [map_center, validRows_pipeline]
  rcases hsr : successRows (process_csv_zipcodes p rows).rows with _ | ⟨v, vs⟩
  · exfalso
    obtain ⟨r, hr, hsucc⟩ := hs
    have hmem : r ∈ successRows (process_csv_zipcodes p rows).rows :=
      List.mem_filter.mpr ⟨hr, by simp [hsucc]⟩
    rw [hsr] at hmem
    cases hmem
  · rfl

theorem C7_witness :
    map_center (process_csv_zipcodes okP [row10001]).rows = some (40, -73) := by
  have h := C7_center_is_mean_of_success okP [row10001]
    ⟨⟨"10001", 2500, [], some 40, some (-73), Status.Success⟩, by decide, rfl⟩
  rw [h]
  norm_num [successRows, process_csv_zipcodes, processRows, resultRowFor,
    geocode_zipcode, okP, queryString, pyTruthy, row10001, latVal, lonVal]

/-- C8: when no row has valid coordinates, `create_map` takes the
explicit no-data path (error message plus `None`, no map artifact)
instead of producing an empty or invalid map, while the run itself still
returns a status row for every input row, all of them Failed. -/
theorem C8_no_success_no_artifact (p : Provider) (rows : List InputRow)
    (hfail : ∀ r ∈ (process_csv_zipcodes p rows).rows,
      r.geocoding_status ≠ Status.Success) :
    create_map (process_csv_zipcodes p rows).rows = Except.ok MapOutcome.noData ∧
    map_center (process_csv_zipcodes p rows).rows = none ∧
    (process_csv_zipcodes p rows).rows.map stripResult = rows ∧
    ∀ r ∈ (process_csv_zipcodes p rows).rows, r.geocoding_status = Status.Failed := by
  have hvalid : validRows (process_csv_zipcodes p rows).rows = [] := by
    rw [validRows_pipeline, successRows]
    apply List.filter_eq_nil_iff.mpr
    intro r hr
    simp [hfail r hr]
  refine ⟨?_, ?_, process_strip_eq p rows, ?_⟩
  · rw [create_map, hvalid]
    rfl
  · rw [map_center, hvalid]
    rfl
  · intro r hr
    have hne := hfail r hr
    rw [process_rows_eq] at hr
    rcases List.mem_map.mp hr with ⟨x, _, rfl⟩
    rcases status_resultRowFor p x with h | h
    · exact absurd h hne
    · exact h

theorem C8_witness :
    create_map (process_csv_zipcodes notFoundP [row10001, row90210]).rows =
        Except.ok MapOutcome.noData ∧
    (process_csv_zipcodes notFoundP [row10001, row90210]).rows.map stripResult =
        [row10001, row90210] := by
  have h := C8_no_success_no_artifact notFoundP [row10001, row90210] (by decide)
  exact ⟨h.1, h.2.2.1⟩

/-- C9: an uploaded table missing a required column fails validation with
the missing-column error before any geocoding: the outcome is the same
for every provider (no provider call is consulted) and no processed rows
exist; a table with all required columns is processed, and every row's
input columns - extra columns included - are passed through untouched. -/
theorem C9_validation_gate (p q : Provider) (t : RawTable) :
    (missing_columns t.columns ≠ [] →
      main_process p t =
        Except.error ("Missing required columns: " ++
          String.intercalate ", " (missing_columns t.columns)) ∧
      main_process p t = main_process q t) ∧
    (missing_columns t.columns = [] →
      main_process p t = Except.ok (process_csv_zipcodes p t.rows) ∧
      ∃ out, main_process p t = Except.ok out ∧
        out.rows.map stripResult = t.rows) := by
  constructor
  · intro hm
    rw [main_process, if_neg hm, main_process, if_neg hm]
    exact ⟨rfl, rfl⟩
  · intro hm
    rw [main_process, if_pos hm]
    exact ⟨rfl, process_csv_zipcodes p t.rows, rfl, process_strip_eq p t.rows⟩

theorem C9_witness :
    missing_columns tableMissing.columns ≠ [] ∧
    main_process okP tableMissing =
      Except.error ("Missing required columns: " ++
        String.intercalate ", " (missing_columns tableMissing.columns)) ∧
    missing_columns tableGood.columns = [] ∧
    main_process okP tableGood = Except.ok (process_csv_zipcodes okP tableGood.rows) := by
  have h1 := (C9_validation_gate okP notFoundP tableMissing).1 (by decide)
  have h2 := (C9_validation_gate okP notFoundP tableGood).2 (by decide)
  exact ⟨by decide, h1.1, by decide, h2.1⟩

/-- C10: in every pipeline output, a row's latitude is non-null iff its
longitude is non-null iff its status is Success; every Failed row has
both coordinates null; and the success counter reported at completion
equals the number of Success rows. -/
theorem C10_coords_iff_success (p : Provider) (rows : List InputRow) (r : ResultRow)
    (hmem : r ∈ (process_csv_zipcodes p rows).rows) :
    (r.latitude.isSome = true ↔ r.longitude.isSome = true) ∧
    (r.latitude.isSome = true ↔ r.geocoding_status = Status.Success) ∧
    (r.geocoding_status = Status.Failed → r.latitude = none ∧ r.longitude = none) ∧
    (process_csv_zipcodes p rows).successful_geocodes =
      (successRows (process_csv_zipcodes p rows).rows).length := by
  rw [process_rows_eq] at hmem
  rcases List.mem_map.mp hmem with ⟨x, _, rfl⟩
  refine ⟨(latitude_isSome_iff p x).trans (longitude_isSome_iff p x).symm,
    latitude_isSome_iff p x, ?_, success_counter_eq p rows⟩
  intro hf
  rcases resultRowFor_cases p x with ⟨a, b, _, _, hshape⟩ | hshape
  · rw [hshape] at hf
    simp at hf
  · rw [hshape]
    exact ⟨rfl, rfl⟩

theorem C10_witness :
    (process_csv_zipcodes okP [row10001]).successful_geocodes =
      (successRows (process_csv_zipcodes okP [row10001]).rows).length :=
  (C10_coords_iff_success okP [row10001]
    ⟨"10001", 2500, [], some 40, some (-73), Status.Success⟩ (by decide)).2.2.2

end AddressMapper
